import Mathlib

/-!
# Verification of the complaint escalation engine

Shallow embedding of the complaint escalation routes of
`src/routes/complaints.js` together with the constants of
`src/config/constants.js`.

Times are modelled as milliseconds since the epoch (`Int`, as JavaScript
`Date.getTime()`).  Mongo `ObjectId`s are modelled as `Nat`.  Optional
Mongoose fields are `Option`s.  The `OfficePerformance` Mongo collection is
modelled as a partial map from `(office, officeRole)` keys to records, as
`findOne`/`save` use exactly that key pair.
-/

namespace SmartBackend

/-- The 7 complaint stages of `COMPLAINT_STAGES` in `src/config/constants.js`. -/
inductive Stage where
  | stakeholder_first
  | stakeholder_second
  | wereda_first
  | wereda_second
  | kifleketema_first
  | kifleketema_second
  | kentiba
  deriving DecidableEq, Repr

/-- The 4 complaint handlers of `COMPLAINT_HANDLERS` in `src/config/constants.js`. -/
inductive Handler where
  | stakeholder_office
  | wereda_anti_corruption
  | kifleketema_anti_corruption
  | kentiba_biro
  deriving DecidableEq, Repr

/-- The complaint statuses of `COMPLAINT_STATUS` in `src/config/constants.js`. -/
inductive Status where
  | pending
  | in_progress
  | resolved
  | escalated
  deriving DecidableEq, Repr

/-- Constant `ESCALATION_TIMEFRAMES.STAKEHOLDER_RESPONSE`: 3 days in milliseconds. -/
def STAKEHOLDER_RESPONSE : Int := 3 * 24 * 60 * 60 * 1000

/-- Constant `ESCALATION_TIMEFRAMES.WEREDA_RESPONSE`: 5 days in milliseconds. -/
def WEREDA_RESPONSE : Int := 5 * 24 * 60 * 60 * 1000

/-- Constant `ESCALATION_TIMEFRAMES.KIFLEKETEMA_RESPONSE`: 7 days in milliseconds. -/
def KIFLEKETEMA_RESPONSE : Int := 7 * 24 * 60 * 60 * 1000

/-- One entry of a complaint's `responses` array, as pushed by
`POST /:id/respond` (lines 556-563 of `src/routes/complaints.js`). -/
structure ComplaintResponse where
  responder : Nat
  responderRole : Handler
  response : String
  internalComment : String
  status : Status
  createdAt : Int
  deriving DecidableEq, Repr

/-- One entry of `escalationHistory`.  The JavaScript field names `from` and
`to` are reserved words in Lean and are rendered `fromHandler`/`toHandler`. -/
structure EscalationEntry where
  fromHandler : Handler
  toHandler : Handler
  reason : String
  date : Int
  deriving DecidableEq, Repr

/-- One entry of an office's `failureRecords` array
(lines 463-469 of `src/routes/complaints.js`). -/
structure FailureRecord where
  complaint : Nat
  escalatedFrom : Stage
  escalatedTo : Stage
  reason : String
  date : Int
  deriving DecidableEq, Repr

/-- The `resolution` sub-document set by `POST /:id/accept`
(lines 733-738 of `src/routes/complaints.js`). -/
structure Resolution where
  resolvedBy : Nat
  resolverRole : Handler
  resolution : String
  resolvedAt : Int
  deriving DecidableEq, Repr

/-- A complaint document, from the `ComplaintSchema` of
`src/models/User.js` (the Complaint Mongoose model shares that file with the
User model, lines 131-295).  `user`, `title`, `description`,
`stakeholderOffice` and `location` are schema-required; the per-stage due
timestamps are optional `Date`s; `responses` and `escalationHistory` are
append-only arrays; `relatedComplaint`/`secondStageComplaint` are optional
links.  The schema's validators and pre-save hook are modelled by
`complaintValid` and `preSaveHook` below. -/
structure Complaint where
  id : Nat
  user : Nat
  title : String
  description : String
  stakeholderOffice : Nat
  location : String
  additionalDetails : String
  attachments : List String
  currentStage : Stage
  currentHandler : Handler
  status : Status
  responses : List ComplaintResponse
  escalationHistory : List EscalationEntry
  stakeholderFirstResponseDue : Option Int
  stakeholderSecondResponseDue : Option Int
  weredaFirstResponseDue : Option Int
  weredaSecondResponseDue : Option Int
  kifleketemaFirstResponseDue : Option Int
  kifleketemaSecondResponseDue : Option Int
  relatedComplaint : Option Nat
  secondStageComplaint : Option Nat
  resolution : Option Resolution
  submittedAt : Int
  updatedAt : Int
  deriving DecidableEq, Repr

/-- An `OfficePerformance` document.  `averageResolutionTime` is a JavaScript
number holding a running mean of days, modelled as `ℚ`. -/
structure OfficePerformance where
  office : Nat
  officeRole : Handler
  totalComplaints : Nat
  resolvedComplaints : Nat
  escalatedComplaints : Nat
  averageResolutionTime : ℚ
  failureRecords : List FailureRecord
  updatedAt : Int
  deriving DecidableEq, Repr

/-- Modelled from the spec: the `OfficePerformance` Mongoose model file is not
under `src/`.  Per §3 of the spec its counters are monotonically increasing
counters created lazily, so a record freshly constructed by
`new OfficePerformance({office, officeRole})` starts with all counters and the
running average at 0 and an empty `failureRecords` list. -/
def OfficePerformance.init (office : Nat) (role : Handler) : OfficePerformance where
  office := office
  officeRole := role
  totalComplaints := 0
  resolvedComplaints := 0
  escalatedComplaints := 0
  averageResolutionTime := 0
  failureRecords := []
  updatedAt := 0

/-- The `OfficePerformance` collection, keyed the way every
`OfficePerformance.findOne` call in `src/routes/complaints.js` queries it:
by `office` id and `officeRole`. -/
def PerfStore : Type := Nat → Handler → Option OfficePerformance

/-- Store the saved record under its `(office, officeRole)` key. -/
def updatePerf (perf : PerfStore) (office : Nat) (role : Handler)
    (rec : OfficePerformance) : PerfStore :=
  fun o r => if o = office ∧ r = role then some rec else perf o r

/-- Lookup `findOne` followed by lazy creation: the record under the key, or a fresh
default record when `findOne` returned `null`
(e.g. lines 450-460 of `src/routes/complaints.js`). -/
def findOrInit (perf : PerfStore) (office : Nat) (role : Handler) : OfficePerformance :=
  (perf office role).getD (OfficePerformance.init office role)

/-- The `User.findOne({role: ...})` lookups of lines 435 and 442 of
`src/routes/complaints.js`: an arbitrary officer currently holding the wereda
(resp. kifleketema) anti-corruption role, if any. -/
structure EscEnv where
  weredaOfficer : Option Nat
  kifleketemaOfficer : Option Nat
  deriving DecidableEq, Repr

/-- JavaScript `now > due` on an optional `Date`: when the field is
`undefined` the comparison evaluates to `false` (NaN comparison), it does not
throw. -/
def jsAfter (now : Int) (due : Option Int) : Bool :=
  match due with
  | some d => decide (d < now)
  | none => false

/-- Global index of a stage in the fixed 7-stage order. -/
def stageIdx : Stage → Nat
  | .stakeholder_first => 0
  | .stakeholder_second => 1
  | .wereda_first => 2
  | .wereda_second => 3
  | .kifleketema_first => 4
  | .kifleketema_second => 5
  | .kentiba => 6

/-- The due-date field of the complaint's current stage, as read by the
`switch` of lines 300-382 of `src/routes/complaints.js`. -/
def dueOf (c : Complaint) : Option Int :=
  match c.currentStage with
  | .stakeholder_first => c.stakeholderFirstResponseDue
  | .stakeholder_second => c.stakeholderSecondResponseDue
  | .wereda_first => c.weredaFirstResponseDue
  | .wereda_second => c.weredaSecondResponseDue
  | .kifleketema_first => c.kifleketemaFirstResponseDue
  | .kifleketema_second => c.kifleketemaSecondResponseDue
  | .kentiba => none

/-- Names of the six writable due-date fields (the JavaScript code addresses
them by string in `complaint[dueDateField]`). -/
inductive DueField where
  | stakeholderFirst
  | stakeholderSecond
  | weredaFirst
  | weredaSecond
  | kifleketemaFirst
  | kifleketemaSecond
  deriving DecidableEq, Repr

/-- Assignment `complaint[dueDateField] = dueDate`. -/
def setDueField (c : Complaint) (f : DueField) (v : Option Int) : Complaint :=
  match f with
  | .stakeholderFirst => { c with stakeholderFirstResponseDue := v }
  | .stakeholderSecond => { c with stakeholderSecondResponseDue := v }
  | .weredaFirst => { c with weredaFirstResponseDue := v }
  | .weredaSecond => { c with weredaSecondResponseDue := v }
  | .kifleketemaFirst => { c with kifleketemaFirstResponseDue := v }
  | .kifleketemaSecond => { c with kifleketemaSecondResponseDue := v }

/-- The `switch (complaint.currentStage)` of lines 300-382 of
`src/routes/complaints.js`: when the complaint is eligible, the computed
`(nextStage, nextHandler, fromStage/toStage pair, dueDateField)`.  The
`fromStage`/`toStage` pair is set only on the three cross-handler cases, and
`dueDateField` stays empty on the transition into `kentiba`.  `none` means
`canEscalate` stayed `false`. -/
def escalateCheck (c : Complaint) (now : Int) :
    Option (Stage × Handler × Option (Stage × Stage) × Option DueField) :=
  match c.currentStage with
  | .stakeholder_first =>
    if jsAfter now c.stakeholderFirstResponseDue ||
        (decide (0 < c.responses.length) && !(c.status == Status.resolved)) then
      some (.stakeholder_second, .stakeholder_office, none, some .stakeholderSecond)
    else none
  | .stakeholder_second =>
    if jsAfter now c.stakeholderSecondResponseDue ||
        (decide (1 < c.responses.length) && !(c.status == Status.resolved)) then
      some (.wereda_first, .wereda_anti_corruption,
        some (.stakeholder_second, .wereda_first), some .weredaFirst)
    else none
  | .wereda_first =>
    if jsAfter now c.weredaFirstResponseDue ||
        (decide (2 < c.responses.length) && !(c.status == Status.resolved)) then
      some (.wereda_second, .wereda_anti_corruption, none, some .weredaSecond)
    else none
  | .wereda_second =>
    if jsAfter now c.weredaSecondResponseDue ||
        (decide (3 < c.responses.length) && !(c.status == Status.resolved)) then
      some (.kifleketema_first, .kifleketema_anti_corruption,
        some (.wereda_second, .kifleketema_first), some .kifleketemaFirst)
    else none
  | .kifleketema_first =>
    if jsAfter now c.kifleketemaFirstResponseDue ||
        (decide (4 < c.responses.length) && !(c.status == Status.resolved)) then
      some (.kifleketema_second, .kifleketema_anti_corruption, none, some .kifleketemaSecond)
    else none
  | .kifleketema_second =>
    if jsAfter now c.kifleketemaSecondResponseDue ||
        (decide (5 < c.responses.length) && !(c.status == Status.resolved)) then
      some (.kentiba, .kentiba_biro, some (.kifleketema_second, .kentiba), none)
    else none
  | .kentiba => none

/-- Escalation timeframe for the new handler's role (lines 401-407 of
`src/routes/complaints.js`); `kentiba_biro` has no timeframe and would leave
the JavaScript `dueDate` variable `undefined`. -/
def timeframeFor : Handler → Option Int
  | .stakeholder_office => some STAKEHOLDER_RESPONSE
  | .wereda_anti_corruption => some WEREDA_RESPONSE
  | .kifleketema_anti_corruption => some KIFLEKETEMA_RESPONSE
  | .kentiba_biro => none

/-- The office blamed for a cross-handler escalation, from `fromStage`
(lines 427-447 of `src/routes/complaints.js`): the complaint's own
stakeholder office when leaving `stakeholder_second`, otherwise an arbitrary
officer of the losing role found by `User.findOne` — which may not exist. -/
def penalizedOfficeFor (env : EscEnv) (stakeholderOffice : Nat) (fromStage : Stage) :
    Option (Nat × Handler) :=
  if fromStage == Stage.stakeholder_second then
    some (stakeholderOffice, Handler.stakeholder_office)
  else if fromStage == Stage.wereda_second then
    env.weredaOfficer.map (fun u => (u, Handler.wereda_anti_corruption))
  else if fromStage == Stage.kifleketema_second then
    env.kifleketemaOfficer.map (fun u => (u, Handler.kifleketema_anti_corruption))
  else none

/-- The `escalationHistory.from` enum of the Complaint schema
(`src/models/User.js` lines 211-214): `kentiba_biro` is NOT a legal value. -/
def validHistFrom : Handler → Bool
  | .stakeholder_office => true
  | .wereda_anti_corruption => true
  | .kifleketema_anti_corruption => true
  | .kentiba_biro => false

/-- The `escalationHistory.to` enum of the Complaint schema
(`src/models/User.js` lines 215-218): `stakeholder_office` is NOT a legal
value. -/
def validHistTo : Handler → Bool
  | .stakeholder_office => false
  | .wereda_anti_corruption => true
  | .kifleketema_anti_corruption => true
  | .kentiba_biro => true

/-- Validity of one `escalationHistory` entry under the schema enums. -/
def validHistEntry (e : EscalationEntry) : Bool :=
  validHistFrom e.fromHandler && validHistTo e.toHandler

/-- Mongoose validation of a Complaint document, restricted to the schema
constraints that can actually fail in this embedding: the required string
fields `title`, `description`, `location` (Mongoose `required` rejects the
empty string) and the `escalationHistory` from/to enums.  The stage, handler,
status, `responderRole` and `resolverRole` enums of the schema list every
value of their Lean types, and the required `user`/`stakeholderOffice` ids
are always present, so those validators never fire here. -/
def complaintValid (c : Complaint) : Bool :=
  !(c.title == "") && !(c.description == "") && !(c.location == "") &&
    c.escalationHistory.all validHistEntry

/-- The `ComplaintSchema.pre("save")` hook of `src/models/User.js`
(lines 281-293): a NEW document gets `stakeholderFirstResponseDue` set to
save time plus 3 days, and every save refreshes `updatedAt`. -/
def preSaveHook (isNew : Bool) (c : Complaint) (now : Int) : Complaint :=
  if isNew then
    { c with stakeholderFirstResponseDue := some (now + 3 * 24 * 60 * 60 * 1000),
             updatedAt := now }
  else
    { c with updatedAt := now }

/-- Mongoose `complaint.save()`: the schema validators together with the
pre-save hook; `none` models a thrown `ValidationError`, which every route's
catch block turns into a 500 response.  The hook only writes date fields the
validators do not inspect, so applying it before validation is
outcome-equivalent to Mongoose's validate-then-hook order. -/
def saveComplaint (isNew : Bool) (c : Complaint) (now : Int) : Option Complaint :=
  let c1 := preSaveHook isNew c now
  if complaintValid c1 then some c1 else none

/-- Typed failures of `POST /:id/escalate` past the role/ownership guards,
per the error taxonomy of §7 of the spec.  `ValidationError` is the
save-time Mongoose ValidationError (schema enum/required violation), which
the route's catch block surfaces as a 500 response. -/
inductive EscErr where
  | AlreadyResolvedError
  | TerminalStageError
  | EscalationNotAllowedError
  | ValidationError
  deriving DecidableEq, Repr

/-- The complaint-document side of the transition effects of an eligible
escalation (lines 391-424 and 474-486 of `src/routes/complaints.js`): set
stage, handler, `pending` status and `updatedAt`; write the new due date when
`dueDateField` is set; append one `escalationHistory` entry — a cross-handler
entry when `fromStage`/`toStage` are set, a same-handler entry otherwise.

In the cross-handler branch the `from` handler of the history entry is
computed from `complaint.currentHandler` AFTER it was overwritten with
`nextHandler` (line 393 precedes lines 417-420), reproducing the two-way
ternary of the source. -/
def escalateComplaint (c : Complaint) (now : Int) (reason : Option String)
    (nextStage : Stage) (nextHandler : Handler) (fromTo : Option (Stage × Stage))
    (dueField : Option DueField) : Complaint :=
  let c1 : Complaint :=
    { c with currentStage := nextStage, currentHandler := nextHandler,
             status := Status.pending, updatedAt := now }
  let c2 : Complaint :=
    match dueField with
    | none => c1
    | some f => setDueField c1 f ((timeframeFor nextHandler).map (fun t => now + t))
  match fromTo with
  | some _ =>
    let reasonStr := reason.getD "Escalated due to unresolved complaint"
    let fromH : Handler :=
      if c2.currentHandler == Handler.wereda_anti_corruption then
        Handler.stakeholder_office
      else
        Handler.wereda_anti_corruption
    { c2 with escalationHistory := c2.escalationHistory ++
        [{ fromHandler := fromH, toHandler := nextHandler,
           reason := reasonStr, date := now }] }
  | none =>
    let reasonStr := reason.getD "Escalated to next stage"
    { c2 with escalationHistory := c2.escalationHistory ++
        [{ fromHandler := c2.currentHandler, toHandler := nextHandler,
           reason := reasonStr, date := now }] }

/-- The `OfficePerformance` side of the transition effects (lines 426-473 of
`src/routes/complaints.js`): only a cross-handler escalation touches the
store, and only when a penalized office was identified — then its
`escalatedComplaints` counter is bumped and one failure record appended. -/
def escalatePerf (env : EscEnv) (perf : PerfStore) (c : Complaint) (now : Int)
    (reason : Option String) (fromTo : Option (Stage × Stage)) : PerfStore :=
  match fromTo with
  | some (fromStage, toStage) =>
    let reasonStr := reason.getD "Escalated due to unresolved complaint"
    match penalizedOfficeFor env c.stakeholderOffice fromStage with
    | some (officeId, officeRole) =>
      let op := findOrInit perf officeId officeRole
      updatePerf perf officeId officeRole
        { op with escalatedComplaints := op.escalatedComplaints + 1,
                  failureRecords := op.failureRecords ++
                    [{ complaint := c.id, escalatedFrom := fromStage,
                       escalatedTo := toStage, reason := reasonStr, date := now }],
                  updatedAt := now }
    | none => perf
  | none => perf

/-- Route `POST /:id/escalate` (lines 268-496 of `src/routes/complaints.js`), after
the citizen-role, existence and ownership guards.  Returns the saved
complaint and the `OfficePerformance` store after the operation.

Order of the guards follows the code: the `resolved` check of line 287 runs
before the `switch`, whose `kentiba` case returns the terminal-stage error.
The final `complaint.save()` of line 486 runs the schema validators: the
within-handler `stakeholder_first → stakeholder_second` entry has
`to = stakeholder_office`, which the history `to`-enum rejects, so that whole
branch throws and the route answers 500 (`ValidationError` here).  The
performance save of line 472 precedes the complaint save; on the one
transition that can fail validation no performance record is touched, so
returning the error alone loses no reachable store state. -/
def escalate (env : EscEnv) (perf : PerfStore) (c : Complaint) (now : Int)
    (reason : Option String) : Except EscErr (Complaint × PerfStore) :=
  if c.status == Status.resolved then
    .error .AlreadyResolvedError
  else
    match escalateCheck c now with
    | none =>
      if c.currentStage == Stage.kentiba then
        .error .TerminalStageError
      else
        .error .EscalationNotAllowedError
    | some (nextStage, nextHandler, fromTo, dueField) =>
      match saveComplaint false
          (escalateComplaint c now reason nextStage nextHandler fromTo dueField) now with
      | some saved => .ok (saved, escalatePerf env perf c now reason fromTo)
      | none => .error .ValidationError

/-- Typed failures of the second-stage branch of `POST api/complaints`:
`NotFoundOrIneligible` when the `findOne` of lines 106-112 matched nothing
(original complaint absent, not owned, wrong stage, wrong status, or no
response yet); `ValidationError` when one of the two `save()` calls fails the
schema validators (e.g. an empty required field on the new complaint) and the
route answers 500. -/
inductive SecondStageErr where
  | NotFoundOrIneligible
  | ValidationError
  deriving DecidableEq, Repr

/-- The second-stage branch of `POST api/complaints`
(lines 104-200 of `src/routes/complaints.js`), after the citizen-role guard
and with `isSecondStage === "true"` and an `originalComplaintId` present.
`orig` is the document with that id; `reqOffice` is the request body's
`stakeholderOfficeId` (note: taken from the request, not from `orig`).
`newId` is the id Mongo assigns to the new document.  Returns the new
complaint, the updated original and the updated performance store.

Both saves run the schema machinery: the new complaint's save (line 161,
`isNew`, so the pre-save hook also writes
`stakeholderFirstResponseDue = now + 3` days) validates the request-supplied
required fields, and the original's save (line 178) re-validates the original
document; the pushed history entry (`from` = current level's handler, `to` =
the next level up) is always enum-valid.  If the second save fails, the new
complaint has already persisted — the partial-write hazard of §5 of the spec;
the route then answers 500 either way. -/
def secondStageSubmit (perf : PerfStore) (orig : Complaint) (requester : Nat)
    (reqOffice : Nat) (newId : Nat) (now : Int)
    (title description location additionalDetails : String)
    (attachments : List String) :
    Except SecondStageErr (Complaint × Complaint × PerfStore) :=
  if orig.user == requester &&
      (orig.currentStage == Stage.stakeholder_first ||
        orig.currentStage == Stage.wereda_first) &&
      orig.status == Status.in_progress && !orig.responses.isEmpty then
    let stakeholderPath := orig.currentStage == Stage.stakeholder_first
    let nextStage : Stage :=
      if stakeholderPath then .stakeholder_second else .wereda_second
    let nextHandler : Handler :=
      if stakeholderPath then .stakeholder_office else .wereda_anti_corruption
    let dueDateField : DueField :=
      if stakeholderPath then .stakeholderSecond else .weredaSecond
    let dueDate : Int :=
      now + (if stakeholderPath then STAKEHOLDER_RESPONSE else WEREDA_RESPONSE)
    let escalationTo : Handler :=
      if stakeholderPath then .wereda_anti_corruption else .kifleketema_anti_corruption
    let newC0 : Complaint :=
      { id := newId, user := requester, title := title, description := description,
        stakeholderOffice := reqOffice, location := location,
        additionalDetails := additionalDetails, attachments := attachments,
        currentStage := nextStage, currentHandler := nextHandler,
        status := Status.pending, responses := [], escalationHistory := [],
        stakeholderFirstResponseDue := none, stakeholderSecondResponseDue := none,
        weredaFirstResponseDue := none, weredaSecondResponseDue := none,
        kifleketemaFirstResponseDue := none, kifleketemaSecondResponseDue := none,
        relatedComplaint := some orig.id, secondStageComplaint := none,
        resolution := none, submittedAt := now, updatedAt := now }
    match saveComplaint true (setDueField newC0 dueDateField (some dueDate)) now with
    | none => .error .ValidationError
    | some newC =>
      let orig0 : Complaint :=
        { orig with secondStageComplaint := some newId, currentStage := nextStage,
                    status := Status.escalated,
                    escalationHistory := orig.escalationHistory ++
                      [{ fromHandler := nextHandler, toHandler := escalationTo,
                         reason := "Escalated to second stage by citizen", date := now }] }
      match saveComplaint false orig0 now with
      | none => .error .ValidationError
      | some orig' =>
        let op := findOrInit perf reqOffice nextHandler
        let op' : OfficePerformance :=
          { op with totalComplaints := op.totalComplaints + 1, updatedAt := now }
        .ok (newC, orig', updatePerf perf reqOffice nextHandler op')
  else
    .error .NotFoundOrIneligible

/-- User roles of `USER_ROLES` in `src/config/constants.js`. -/
inductive UserRole where
  | citizen
  | stakeholder_office
  | wereda_anti_corruption
  | kifleketema_anti_corruption
  | kentiba_biro
  deriving DecidableEq, Repr

/-- Typed failures of `POST /:id/respond` past the not-found guard. -/
inductive RespondErr where
  | NotOfficeRole
  | NotCurrentHandler
  deriving DecidableEq, Repr

/-- The current-handler authorization of lines 525-548 of
`src/routes/complaints.js`: role must match the complaint's current handler
and, for stakeholder offices only, the responder must be the assigned office. -/
def respondAuthorized (c : Complaint) (userId : Nat) (userRole : UserRole) : Bool :=
  (userRole == UserRole.stakeholder_office &&
      c.currentHandler == Handler.stakeholder_office &&
      c.stakeholderOffice == userId) ||
  (userRole == UserRole.wereda_anti_corruption &&
      c.currentHandler == Handler.wereda_anti_corruption) ||
  (userRole == UserRole.kifleketema_anti_corruption &&
      c.currentHandler == Handler.kifleketema_anti_corruption) ||
  (userRole == UserRole.kentiba_biro &&
      c.currentHandler == Handler.kentiba_biro)

/-- Route `POST /:id/respond` (lines 501-579 of `src/routes/complaints.js`), after
the not-found guard: append a response with the complaint's current handler
as `responderRole` and force the status to `in_progress`. -/
def respond (c : Complaint) (userId : Nat) (userRole : UserRole)
    (body internalComment : String) (now : Int) : Except RespondErr Complaint :=
  if !(userRole == UserRole.stakeholder_office ||
        userRole == UserRole.wereda_anti_corruption ||
        userRole == UserRole.kifleketema_anti_corruption ||
        userRole == UserRole.kentiba_biro) then
    .error .NotOfficeRole
  else if !respondAuthorized c userId userRole then
    .error .NotCurrentHandler
  else
    .ok { c with
      responses := c.responses ++
        [{ responder := userId, responderRole := c.currentHandler,
           response := body, internalComment := internalComment,
           status := Status.in_progress, createdAt := now }],
      status := Status.in_progress, updatedAt := now }

/-- Typed failures of `POST /:id/accept` past the citizen-role and not-found
guards. -/
inductive AcceptErr where
  | NotOwner
  | NoResponses
  deriving DecidableEq, Repr

/-- The `OfficePerformance` update of lines 760-773 of
`src/routes/complaints.js`: increment `resolvedComplaints`, then either seed
the running average (when the stored average is exactly 0) or fold
`resolutionTime` into it with `n` the post-increment count. -/
def acceptPerfUpdate (op : OfficePerformance) (resolutionTime : ℚ) (now : Int) :
    OfficePerformance :=
  let op1 : OfficePerformance :=
    { op with resolvedComplaints := op.resolvedComplaints + 1 }
  if op1.averageResolutionTime == 0 then
    { op1 with averageResolutionTime := resolutionTime, updatedAt := now }
  else
    { op1 with
      averageResolutionTime :=
        (op1.averageResolutionTime * ((op1.resolvedComplaints : ℚ) - 1) +
          resolutionTime) / (op1.resolvedComplaints : ℚ),
      updatedAt := now }

/-- Route `POST /:id/accept` (lines 705-787 of `src/routes/complaints.js`), after
the citizen-role and not-found guards: resolve the complaint from its latest
response and update the responder's performance record.  `resolutionTime` is
the elapsed milliseconds divided by `1000*60*60*24`, i.e. elapsed days. -/
def accept (perf : PerfStore) (c : Complaint) (requester : Nat) (now : Int) :
    Except AcceptErr (Complaint × PerfStore) :=
  if !(c.user == requester) then
    .error .NotOwner
  else
    match c.responses.getLast? with
    | none => .error .NoResponses
    | some latest =>
      let c' : Complaint :=
        { c with status := Status.resolved,
                 resolution := some
                   { resolvedBy := latest.responder, resolverRole := latest.responderRole,
                     resolution := latest.response, resolvedAt := now },
                 updatedAt := now }
      let op := findOrInit perf latest.responder latest.responderRole
      let resolutionTime : ℚ := ((now - c.submittedAt : Int) : ℚ) / (1000 * 60 * 60 * 24)
      let op' := acceptPerfUpdate op resolutionTime now
      .ok (c', updatePerf perf latest.responder latest.responderRole op')

/-- A complaint-mutating operation, as far as it affects one existing
complaint document (for the second-stage submission this is the ORIGINAL
complaint, whose stage the branch advances). -/
inductive Operation where
  | escalateOp (env : EscEnv) (perf : PerfStore) (now : Int) (reason : Option String)
  | secondStageOp (perf : PerfStore) (requester reqOffice newId : Nat) (now : Int)
      (title description location additionalDetails : String) (attachments : List String)
  | respondOp (userId : Nat) (userRole : UserRole) (body internalComment : String) (now : Int)
  | acceptOp (perf : PerfStore) (requester : Nat) (now : Int)

/-- The state of the complaint after the operation, when the operation
succeeds; `none` when the route answers with an error. -/
def applyOp (c : Complaint) : Operation → Option Complaint
  | .escalateOp env perf now reason =>
    (escalate env perf c now reason).toOption.map Prod.fst
  | .secondStageOp perf requester reqOffice newId now t d l ad at_ =>
    (secondStageSubmit perf c requester reqOffice newId now t d l ad at_).toOption.map
      (fun x => x.2.1)
  | .respondOp userId userRole body ic now =>
    (respond c userId userRole body ic now).toOption
  | .acceptOp perf requester now =>
    (accept perf c requester now).toOption.map Prod.fst

/-! ## Helper notions and sample data used in the statements -/

/-- Escalating FROM this stage crosses a handler boundary: exactly the three
second-stage sources, the cases of the `switch` that set `fromStage` and
`toStage`. -/
def crossesHandler : Stage → Bool
  | .stakeholder_second => true
  | .wereda_second => true
  | .kifleketema_second => true
  | _ => false

/-- The handler owning a stage, per the stage/handler table of §3 of the
spec. -/
def handlerOf : Stage → Handler
  | .stakeholder_first => .stakeholder_office
  | .stakeholder_second => .stakeholder_office
  | .wereda_first => .wereda_anti_corruption
  | .wereda_second => .wereda_anti_corruption
  | .kifleketema_first => .kifleketema_anti_corruption
  | .kifleketema_second => .kifleketema_anti_corruption
  | .kentiba => .kentiba_biro

/-- An empty `OfficePerformance` collection. -/
def emptyPerf : PerfStore := fun _ _ => none

/-- A sample complaint used by concrete witnesses: owned by citizen 0,
against stakeholder office 1, with `nresp` responses all by responder 1. -/
def sampleComplaint (stage : Stage) (h : Handler) (st : Status) (nresp : Nat)
    (subAt : Int) : Complaint where
  id := 10
  user := 0
  title := "t"
  description := "d"
  stakeholderOffice := 1
  location := "l"
  additionalDetails := ""
  attachments := []
  currentStage := stage
  currentHandler := h
  status := st
  responses := List.replicate nresp
    { responder := 1, responderRole := h, response := "r", internalComment := "",
      status := Status.in_progress, createdAt := subAt }
  escalationHistory := []
  stakeholderFirstResponseDue := none
  stakeholderSecondResponseDue := none
  weredaFirstResponseDue := none
  weredaSecondResponseDue := none
  kifleketemaFirstResponseDue := none
  kifleketemaSecondResponseDue := none
  relatedComplaint := none
  secondStageComplaint := none
  resolution := none
  submittedAt := subAt
  updatedAt := subAt

/-! ## Inversion lemmas for the escalation route -/

lemma beq_status_false {c : Complaint} (h1 : c.status ≠ Status.resolved) :
    (c.status == Status.resolved) = false := by
  simpa using h1

/-- Failure shape of `escalate` when the complaint is not resolved and not at
the terminal stage. -/
lemma escalate_notAllowed (env : EscEnv) (perf : PerfStore) (c : Complaint)
    (now : Int) (reason : Option String) (h1 : c.status ≠ Status.resolved)
    (h2 : c.currentStage ≠ Stage.kentiba) (hc : escalateCheck c now = none) :
    escalate env perf c now reason = .error EscErr.EscalationNotAllowedError := by
  unfold escalate
  rw [beq_status_false h1, hc]
  have hk : (c.currentStage == Stage.kentiba) = false := by simpa using h2
  simp [hk]

/-- The eligibility test of the `switch`, stated uniformly: away from
`kentiba` and `resolved`, the check passes exactly when the current stage's
due date lies strictly in the past or the response count exceeds the stage's
global index. -/
lemma escalateCheck_isSome_iff (c : Complaint) (now : Int)
    (h1 : c.status ≠ Status.resolved) (h2 : c.currentStage ≠ Stage.kentiba) :
    (escalateCheck c now).isSome = true ↔
      (jsAfter now (dueOf c) = true ∨ stageIdx c.currentStage < c.responses.length) := by
  have hb := beq_status_false h1
  unfold escalateCheck dueOf stageIdx
  cases hst : c.currentStage <;> simp_all [hst]

/-- Inversion of a successful escalation: the guards passed, the check
produced the transition data, the transformed document passed the schema
validators, and the outputs are the saved (hook-applied) document and the
performance effect. -/
lemma escalate_ok_elim {env : EscEnv} {perf : PerfStore} {c : Complaint}
    {now : Int} {reason : Option String} {c' : Complaint} {perf' : PerfStore}
    (h : escalate env perf c now reason = .ok (c', perf')) :
    c.status ≠ Status.resolved ∧
    ∃ ns nh ft df, escalateCheck c now = some (ns, nh, ft, df) ∧
      complaintValid (preSaveHook false
        (escalateComplaint c now reason ns nh ft df) now) = true ∧
      c' = preSaveHook false (escalateComplaint c now reason ns nh ft df) now ∧
      perf' = escalatePerf env perf c now reason ft := by
  unfold escalate at h
  split at h
  · cases h
  · rename_i hb
    refine ⟨by simpa using hb, ?_⟩
    split at h
    · split at h <;> cases h
    · rename_i ns nh ft df heq
      split at h
      · rename_i saved heq2
        injection h with h2
        injection h2 with h3 h4
        simp only [saveComplaint] at heq2
        split at heq2
        · rename_i hvalid
          injection heq2 with h5
          exact ⟨ns, nh, ft, df, heq, hvalid, h3 ▸ h5.symm, h4.symm⟩
        · cases heq2
      · cases h

/-- Inversion of the eligibility check: the next stage is the successor in
the 7-stage order, its handler comes from the stage table, the
`fromStage`/`toStage` pair is set exactly on the cross-handler sources, and
away from `stakeholder_first` the appended history entry's handlers pass the
schema enums. -/
lemma escalateCheck_elim {c : Complaint} {now : Int} {ns : Stage} {nh : Handler}
    {ft : Option (Stage × Stage)} {df : Option DueField}
    (h : escalateCheck c now = some (ns, nh, ft, df)) :
    stageIdx ns = stageIdx c.currentStage + 1 ∧
    nh = handlerOf ns ∧
    (crossesHandler c.currentStage = true → ft = some (c.currentStage, ns)) ∧
    (crossesHandler c.currentStage = false → ft = none) ∧
    (c.currentStage ≠ Stage.stakeholder_first →
      validHistTo nh = true ∧ (ft = none → validHistFrom nh = true)) := by
  unfold escalateCheck at h
  split at h <;> (try split at h) <;> (try cases h) <;>
    simp_all [stageIdx, handlerOf, crossesHandler, validHistTo, validHistFrom]

lemma setDueField_currentStage (c : Complaint) (f : DueField) (v : Option Int) :
    (setDueField c f v).currentStage = c.currentStage := by
  cases f <;> rfl

lemma escalateComplaint_currentStage (c : Complaint) (now : Int) (r : Option String)
    (ns : Stage) (nh : Handler) (ft : Option (Stage × Stage)) (df : Option DueField) :
    (escalateComplaint c now r ns nh ft df).currentStage = ns := by
  unfold escalateComplaint
  rcases ft with _ | ⟨fs, ts⟩ <;> rcases df with _ | f <;> (try cases f) <;> rfl

lemma escalateComplaint_status (c : Complaint) (now : Int) (r : Option String)
    (ns : Stage) (nh : Handler) (ft : Option (Stage × Stage)) (df : Option DueField) :
    (escalateComplaint c now r ns nh ft df).status = Status.pending := by
  unfold escalateComplaint
  rcases ft with _ | ⟨fs, ts⟩ <;> rcases df with _ | f <;> (try cases f) <;> rfl

/-- Within-handler escalation appends one history entry whose `from` and `to`
are both the (unchanged) handler. -/
lemma escalateComplaint_within_history (c : Complaint) (now : Int) (r : Option String)
    (ns : Stage) (nh : Handler) (df : Option DueField) :
    (escalateComplaint c now r ns nh none df).escalationHistory =
      c.escalationHistory ++
        [{ fromHandler := nh, toHandler := nh,
           reason := r.getD "Escalated to next stage", date := now }] := by
  unfold escalateComplaint
  rcases df with _ | f <;> (try cases f) <;> rfl

/-- Cross-handler escalation appends one history entry whose recorded `from`
comes from the two-way ternary of lines 417-420 evaluated on the already
updated handler. -/
lemma escalateComplaint_cross_history (c : Complaint) (now : Int) (r : Option String)
    (ns : Stage) (nh : Handler) (fs ts : Stage) (df : Option DueField) :
    (escalateComplaint c now r ns nh (some (fs, ts)) df).escalationHistory =
      c.escalationHistory ++
        [{ fromHandler := if nh == Handler.wereda_anti_corruption then
             Handler.stakeholder_office else Handler.wereda_anti_corruption,
           toHandler := nh,
           reason := r.getD "Escalated due to unresolved complaint", date := now }] := by
  unfold escalateComplaint
  rcases df with _ | f <;> (try cases f) <;> rfl

lemma escalatePerf_within (env : EscEnv) (perf : PerfStore) (c : Complaint)
    (now : Int) (r : Option String) : escalatePerf env perf c now r none = perf := rfl

lemma escalatePerf_cross_some (env : EscEnv) (perf : PerfStore) (c : Complaint)
    (now : Int) (r : Option String) (fs ts : Stage) (oid : Nat) (orole : Handler)
    (hpo : penalizedOfficeFor env c.stakeholderOffice fs = some (oid, orole)) :
    escalatePerf env perf c now r (some (fs, ts)) =
      updatePerf perf oid orole
        { findOrInit perf oid orole with
          escalatedComplaints := (findOrInit perf oid orole).escalatedComplaints + 1,
          failureRecords := (findOrInit perf oid orole).failureRecords ++
            [{ complaint := c.id, escalatedFrom := fs, escalatedTo := ts,
               reason := r.getD "Escalated due to unresolved complaint", date := now }],
          updatedAt := now } := by
  unfold escalatePerf
  dsimp only
  rw [hpo]

lemma updatePerf_self (perf : PerfStore) (o : Nat) (r : Handler)
    (rec : OfficePerformance) : updatePerf perf o r rec o r = some rec := by
  unfold updatePerf
  simp

lemma preSaveHook_title (b : Bool) (c : Complaint) (now : Int) :
    (preSaveHook b c now).title = c.title := by
  cases b <;> rfl

lemma preSaveHook_description (b : Bool) (c : Complaint) (now : Int) :
    (preSaveHook b c now).description = c.description := by
  cases b <;> rfl

lemma preSaveHook_location (b : Bool) (c : Complaint) (now : Int) :
    (preSaveHook b c now).location = c.location := by
  cases b <;> rfl

lemma preSaveHook_escalationHistory (b : Bool) (c : Complaint) (now : Int) :
    (preSaveHook b c now).escalationHistory = c.escalationHistory := by
  cases b <;> rfl

lemma preSaveHook_currentStage (b : Bool) (c : Complaint) (now : Int) :
    (preSaveHook b c now).currentStage = c.currentStage := by
  cases b <;> rfl

lemma escalateComplaint_title (c : Complaint) (now : Int) (r : Option String)
    (ns : Stage) (nh : Handler) (ft : Option (Stage × Stage)) (df : Option DueField) :
    (escalateComplaint c now r ns nh ft df).title = c.title := by
  unfold escalateComplaint
  rcases ft with _ | ⟨fs, ts⟩ <;> rcases df with _ | f <;> (try cases f) <;> rfl

lemma escalateComplaint_description (c : Complaint) (now : Int) (r : Option String)
    (ns : Stage) (nh : Handler) (ft : Option (Stage × Stage)) (df : Option DueField) :
    (escalateComplaint c now r ns nh ft df).description = c.description := by
  unfold escalateComplaint
  rcases ft with _ | ⟨fs, ts⟩ <;> rcases df with _ | f <;> (try cases f) <;> rfl

lemma escalateComplaint_location (c : Complaint) (now : Int) (r : Option String)
    (ns : Stage) (nh : Handler) (ft : Option (Stage × Stage)) (df : Option DueField) :
    (escalateComplaint c now r ns nh ft df).location = c.location := by
  unfold escalateComplaint
  rcases ft with _ | ⟨fs, ts⟩ <;> rcases df with _ | f <;> (try cases f) <;> rfl

/-- The transformed escalation document passes the schema validators whenever
the base document did and the new entry's handlers pass the history enums
(the cross-handler `from` value is always one of `stakeholder_office` and
`wereda_anti_corruption`, both enum-legal). -/
lemma complaintValid_escalate_doc (c : Complaint) (now : Int) (r : Option String)
    (ns : Stage) (nh : Handler) (ft : Option (Stage × Stage)) (df : Option DueField)
    (h4 : complaintValid c = true) (hto : validHistTo nh = true)
    (hfrom : ft = none → validHistFrom nh = true) :
    complaintValid (preSaveHook false (escalateComplaint c now r ns nh ft df) now) =
      true := by
  unfold complaintValid at h4 ⊢
  rw [preSaveHook_title, preSaveHook_description, preSaveHook_location,
    preSaveHook_escalationHistory, escalateComplaint_title,
    escalateComplaint_description, escalateComplaint_location]
  rcases ft with _ | ⟨fs, ts⟩
  · rw [escalateComplaint_within_history]
    simp only [List.all_append, List.all_cons, List.all_nil, validHistEntry]
    simp_all [hfrom rfl]
  · rw [escalateComplaint_cross_history]
    have hfrom2 : validHistFrom (if nh == Handler.wereda_anti_corruption then
        Handler.stakeholder_office else Handler.wereda_anti_corruption) = true := by
      cases hq : (nh == Handler.wereda_anti_corruption) <;> rfl
    simp only [List.all_append, List.all_cons, List.all_nil, validHistEntry]
    simp_all

lemma saveComplaint_of_valid (b : Bool) (c : Complaint) (now : Int)
    (hv : complaintValid (preSaveHook b c now) = true) :
    saveComplaint b c now = some (preSaveHook b c now) := by
  simp only [saveComplaint]
  rw [hv]
  rfl

/-- A passing check together with a valid transformed document yields the
concrete success output of the route. -/
lemma escalate_ok_of_check_valid (env : EscEnv) (perf : PerfStore) (c : Complaint)
    (now : Int) (reason : Option String) (ns : Stage) (nh : Handler)
    (ft : Option (Stage × Stage)) (df : Option DueField)
    (h1 : c.status ≠ Status.resolved)
    (hc : escalateCheck c now = some (ns, nh, ft, df))
    (hv : complaintValid (preSaveHook false
      (escalateComplaint c now reason ns nh ft df) now) = true) :
    escalate env perf c now reason = .ok
      (preSaveHook false (escalateComplaint c now reason ns nh ft df) now,
       escalatePerf env perf c now reason ft) := by
  unfold escalate
  rw [beq_status_false h1, hc]
  dsimp only
  rw [saveComplaint_of_valid false _ now hv]
  rfl

/-- Success characterization away from the poisoned `stakeholder_first`
branch: for a schema-valid complaint that is not resolved, not terminal and
not at `stakeholder_first`, escalation succeeds exactly when the eligibility
rule passes (the appended history entry is then always enum-valid, so the
save cannot throw). -/
lemma escalate_ok_iff_valid (env : EscEnv) (perf : PerfStore) (c : Complaint)
    (now : Int) (reason : Option String)
    (h1 : c.status ≠ Status.resolved) (h2 : c.currentStage ≠ Stage.kentiba)
    (h3 : c.currentStage ≠ Stage.stakeholder_first)
    (h4 : complaintValid c = true) :
    (∃ out, escalate env perf c now reason = .ok out) ↔
      (jsAfter now (dueOf c) = true ∨ stageIdx c.currentStage < c.responses.length) := by
  constructor
  · rintro ⟨⟨c', p'⟩, hout⟩
    obtain ⟨_, ns, nh, ft, df, hcheck, _, _, _⟩ := escalate_ok_elim hout
    exact (escalateCheck_isSome_iff c now h1 h2).mp (by rw [hcheck]; rfl)
  · intro hcond
    have hch : (escalateCheck c now).isSome = true :=
      (escalateCheck_isSome_iff c now h1 h2).mpr hcond
    obtain ⟨⟨ns, nh, ft, df⟩, hcheck⟩ := Option.isSome_iff_exists.mp hch
    obtain ⟨_, _, _, _, hvn⟩ := escalateCheck_elim hcheck
    exact ⟨_, escalate_ok_of_check_valid env perf c now reason ns nh ft df h1 hcheck
      (complaintValid_escalate_doc c now reason ns nh ft df h4 (hvn h3).1 (hvn h3).2)⟩

/-- C1 (code bug): the claimed success-iff fails at `stakeholder_first`.  An
otherwise eligible escalation (pending, one response) computes the
within-handler transition and pushes a history entry with
`to = stakeholder_office`, which the Complaint schema's `to` enum
(`src/models/User.js` lines 215-218) rejects; `complaint.save()` throws, the
route answers 500, and nothing persists — where the claim (and the spec's own
`now+4d` scenario) expects success. -/
theorem c1_stakeholder_first_save_bug :
    (escalateCheck (sampleComplaint Stage.stakeholder_first
        Handler.stakeholder_office Status.pending 1 0) 100).isSome = true ∧
    escalate ⟨none, none⟩ emptyPerf
      (sampleComplaint Stage.stakeholder_first Handler.stakeholder_office
        Status.pending 1 0) 100 none = .error EscErr.ValidationError ∧
    EscErr.ValidationError ≠ EscErr.EscalationNotAllowedError :=
  ⟨rfl, rfl, by decide⟩

/-- C10 (as stated): with the current stage's due-date field unset the
request does not error out on the missing field — the due-date arm of the
eligibility test can never fire, eligibility is decided solely by the
response-count rule, and a complaint in that state can be escalated only via
sufficient responses (an insufficient count yields
`EscalationNotAllowedError`, not a crash). -/
theorem c10_missing_due_date (env : EscEnv) (perf : PerfStore) (c : Complaint)
    (now : Int) (reason : Option String)
    (h1 : c.status ≠ Status.resolved) (h2 : c.currentStage ≠ Stage.kentiba)
    (h3 : dueOf c = none) :
    ((escalateCheck c now).isSome = true ↔
      stageIdx c.currentStage < c.responses.length) ∧
    ((∃ out, escalate env perf c now reason = .ok out) →
      stageIdx c.currentStage < c.responses.length) ∧
    (¬stageIdx c.currentStage < c.responses.length →
      escalate env perf c now reason = .error EscErr.EscalationNotAllowedError) := by
  have hdue : jsAfter now (dueOf c) = false := by
    rw [h3]
    rfl
  have hch : (escalateCheck c now).isSome = true ↔
      stageIdx c.currentStage < c.responses.length :=
    (escalateCheck_isSome_iff c now h1 h2).trans (by rw [hdue]; simp)
  refine ⟨hch, ?_, ?_⟩
  · rintro ⟨⟨c', p'⟩, hout⟩
    obtain ⟨_, ns, nh, ft, df, hcheck, _, _, _⟩ := escalate_ok_elim hout
    exact hch.mp (by rw [hcheck]; rfl)
  · intro hno
    apply escalate_notAllowed env perf c now reason h1 h2
    cases hc : escalateCheck c now with
    | none => rfl
    | some x => exact absurd (hch.mp (by rw [hc]; rfl)) hno

/-- Witness for C10 at a concrete input: a pending `wereda_first` complaint
with no `weredaFirstResponseDue` and 3 responses — eligibility holds purely
via the response-count rule, and the characterization instantiates. -/
theorem c10_witness :
    (sampleComplaint Stage.wereda_first Handler.wereda_anti_corruption
        Status.pending 3 0).status ≠ Status.resolved ∧
    (sampleComplaint Stage.wereda_first Handler.wereda_anti_corruption
        Status.pending 3 0).currentStage ≠ Stage.kentiba ∧
    dueOf (sampleComplaint Stage.wereda_first Handler.wereda_anti_corruption
        Status.pending 3 0) = none ∧
    (((escalateCheck (sampleComplaint Stage.wereda_first
          Handler.wereda_anti_corruption Status.pending 3 0) 100).isSome = true ↔
      stageIdx (sampleComplaint Stage.wereda_first Handler.wereda_anti_corruption
          Status.pending 3 0).currentStage <
        (sampleComplaint Stage.wereda_first Handler.wereda_anti_corruption
          Status.pending 3 0).responses.length) ∧
    ((∃ out, escalate ⟨none, none⟩ emptyPerf
        (sampleComplaint Stage.wereda_first Handler.wereda_anti_corruption
          Status.pending 3 0) 100 none = .ok out) →
      stageIdx (sampleComplaint Stage.wereda_first Handler.wereda_anti_corruption
          Status.pending 3 0).currentStage <
        (sampleComplaint Stage.wereda_first Handler.wereda_anti_corruption
          Status.pending 3 0).responses.length) ∧
    (¬stageIdx (sampleComplaint Stage.wereda_first Handler.wereda_anti_corruption
          Status.pending 3 0).currentStage <
        (sampleComplaint Stage.wereda_first Handler.wereda_anti_corruption
          Status.pending 3 0).responses.length →
      escalate ⟨none, none⟩ emptyPerf
        (sampleComplaint Stage.wereda_first Handler.wereda_anti_corruption
          Status.pending 3 0) 100 none = .error EscErr.EscalationNotAllowedError)) :=
  ⟨by decide, by decide, by decide,
    c10_missing_due_date ⟨none, none⟩ emptyPerf
      (sampleComplaint Stage.wereda_first Handler.wereda_anti_corruption
        Status.pending 3 0) 100 none (by decide) (by decide) (by decide)⟩

/-- C2 (as stated): a successful within-handler escalation appends exactly
one history entry with `from = to` and leaves the performance store
untouched; a successful cross-handler escalation appends exactly one history
entry and, for the penalized office the code identified, bumps its
`escalatedComplaints` by exactly 1 and appends exactly one failure record. -/
theorem c2_escalation_effects (env : EscEnv) (perf : PerfStore) (c : Complaint)
    (now : Int) (reason : Option String) (c' : Complaint) (perf' : PerfStore)
    (h : escalate env perf c now reason = .ok (c', perf')) :
    (crossesHandler c.currentStage = false →
      (∃ e : EscalationEntry, c'.escalationHistory = c.escalationHistory ++ [e] ∧
        e.fromHandler = e.toHandler) ∧
      perf' = perf) ∧
    (crossesHandler c.currentStage = true →
      (∃ e : EscalationEntry, c'.escalationHistory = c.escalationHistory ++ [e]) ∧
      (∀ oid orole, penalizedOfficeFor env c.stakeholderOffice c.currentStage =
          some (oid, orole) →
        ∃ fr : FailureRecord,
          perf' oid orole = some
            { findOrInit perf oid orole with
              escalatedComplaints := (findOrInit perf oid orole).escalatedComplaints + 1,
              failureRecords := (findOrInit perf oid orole).failureRecords ++ [fr],
              updatedAt := now })) := by
  obtain ⟨h1, ns, nh, ft, df, hcheck, hvalid, hc', hp'⟩ := escalate_ok_elim h
  obtain ⟨hidx, hnh, hcross, hwithin, hvn⟩ := escalateCheck_elim hcheck
  subst hc' hp'
  constructor
  · intro hcf
    have hftn := hwithin hcf
    subst hftn
    refine ⟨⟨{ fromHandler := nh, toHandler := nh,
               reason := reason.getD "Escalated to next stage", date := now },
        ?_, rfl⟩, escalatePerf_within env perf c now reason⟩
    rw [preSaveHook_escalationHistory]
    exact escalateComplaint_within_history c now reason ns nh df
  · intro hct
    have hfts := hcross hct
    subst hfts
    refine ⟨⟨{ fromHandler := if nh == Handler.wereda_anti_corruption then
                 Handler.stakeholder_office else Handler.wereda_anti_corruption,
               toHandler := nh,
               reason := reason.getD "Escalated due to unresolved complaint",
               date := now }, ?_⟩, ?_⟩
    · rw [preSaveHook_escalationHistory]
      exact escalateComplaint_cross_history c now reason ns nh _ _ df
    · intro oid orole hpo
      refine ⟨{ complaint := c.id, escalatedFrom := c.currentStage, escalatedTo := ns,
                reason := reason.getD "Escalated due to unresolved complaint",
                date := now }, ?_⟩
      rw [escalatePerf_cross_some env perf c now reason _ _ oid orole hpo,
        updatePerf_self]

/-- Witness for C2 at a concrete input: escalating a pending
`stakeholder_second` complaint with 2 responses (the cross-handler boundary
into the wereda level). -/
theorem c2_witness :
    escalate ⟨none, none⟩ emptyPerf
      (sampleComplaint Stage.stakeholder_second Handler.stakeholder_office
        Status.pending 2 0) 100 none =
      .ok (escalateComplaint
            (sampleComplaint Stage.stakeholder_second Handler.stakeholder_office
              Status.pending 2 0) 100 none Stage.wereda_first
            Handler.wereda_anti_corruption
            (some (Stage.stakeholder_second, Stage.wereda_first))
            (some DueField.weredaFirst),
          escalatePerf ⟨none, none⟩ emptyPerf
            (sampleComplaint Stage.stakeholder_second Handler.stakeholder_office
              Status.pending 2 0) 100 none
            (some (Stage.stakeholder_second, Stage.wereda_first))) ∧
    (crossesHandler (sampleComplaint Stage.stakeholder_second
        Handler.stakeholder_office Status.pending 2 0).currentStage = true →
      (∃ e : EscalationEntry,
        (escalateComplaint
            (sampleComplaint Stage.stakeholder_second Handler.stakeholder_office
              Status.pending 2 0) 100 none Stage.wereda_first
            Handler.wereda_anti_corruption
            (some (Stage.stakeholder_second, Stage.wereda_first))
            (some DueField.weredaFirst)).escalationHistory =
          (sampleComplaint Stage.stakeholder_second Handler.stakeholder_office
            Status.pending 2 0).escalationHistory ++ [e]) ∧
      (∀ oid orole,
        penalizedOfficeFor ⟨none, none⟩
            (sampleComplaint Stage.stakeholder_second Handler.stakeholder_office
              Status.pending 2 0).stakeholderOffice
            (sampleComplaint Stage.stakeholder_second Handler.stakeholder_office
              Status.pending 2 0).currentStage = some (oid, orole) →
        ∃ fr : FailureRecord,
          escalatePerf ⟨none, none⟩ emptyPerf
              (sampleComplaint Stage.stakeholder_second Handler.stakeholder_office
                Status.pending 2 0) 100 none
              (some (Stage.stakeholder_second, Stage.wereda_first)) oid orole = some
            { findOrInit emptyPerf oid orole with
              escalatedComplaints := (findOrInit emptyPerf oid orole).escalatedComplaints + 1,
              failureRecords := (findOrInit emptyPerf oid orole).failureRecords ++ [fr],
              updatedAt := 100 })) := by
  have hrun : escalate ⟨none, none⟩ emptyPerf
      (sampleComplaint Stage.stakeholder_second Handler.stakeholder_office
        Status.pending 2 0) 100 none =
      .ok (escalateComplaint
            (sampleComplaint Stage.stakeholder_second Handler.stakeholder_office
              Status.pending 2 0) 100 none Stage.wereda_first
            Handler.wereda_anti_corruption
            (some (Stage.stakeholder_second, Stage.wereda_first))
            (some DueField.weredaFirst),
          escalatePerf ⟨none, none⟩ emptyPerf
            (sampleComplaint Stage.stakeholder_second Handler.stakeholder_office
              Status.pending 2 0) 100 none
            (some (Stage.stakeholder_second, Stage.wereda_first))) := by
    rfl
  exact ⟨hrun, (c2_escalation_effects ⟨none, none⟩ emptyPerf
    (sampleComplaint Stage.stakeholder_second Handler.stakeholder_office
      Status.pending 2 0) 100 none _ _ hrun).2⟩

/-- C3 (as stated): no complaint-mutating operation ever moves `currentStage`
backwards along the fixed 7-stage order. -/
theorem c3_stage_monotone (c : Complaint) (op : Operation) (c' : Complaint)
    (h : applyOp c op = some c') :
    stageIdx c.currentStage ≤ stageIdx c'.currentStage := by
  cases op with
  | escalateOp env perf now reason =>
    simp only [applyOp] at h
    cases hesc : escalate env perf c now reason with
    | error e =>
      rw [hesc] at h
      cases h
    | ok out =>
      rw [hesc] at h
      obtain ⟨a, b⟩ := out
      simp only [Except.toOption, Option.map_some'] at h
      cases h
      obtain ⟨h1, ns, nh, ft, df, hcheck, hvalid, hc', hp'⟩ := escalate_ok_elim hesc
      subst hc'
      rw [preSaveHook_currentStage, escalateComplaint_currentStage]
      have hidx := (escalateCheck_elim hcheck).1
      omega
  | secondStageOp perf requester reqOffice newId now t d l ad ats =>
    simp only [applyOp] at h
    unfold secondStageSubmit at h
    split at h
    · rename_i hcond
      dsimp only at h
      by_cases hb : (c.currentStage == Stage.stakeholder_first) = true
      · have hst : c.currentStage = Stage.stakeholder_first := by simpa using hb
        simp only [hb, eq_self_iff_true, if_true] at h
        split at h
        · cases h
        · rename_i newC heq1
          split at h
          · cases h
          · rename_i orig2 heq2
            simp only [Except.toOption, Option.map_some'] at h
            cases h
            simp only [saveComplaint] at heq2
            split at heq2
            · rename_i hval2
              injection heq2 with h5
              rw [← h5, preSaveHook_currentStage]
              simp [hst, stageIdx]
            · cases heq2
      · rw [Bool.not_eq_true] at hb
        have hst : c.currentStage = Stage.wereda_first := by
          simp only [Bool.and_eq_true, Bool.or_eq_true, beq_iff_eq] at hcond
          rcases hcond.1.1.2 with h1 | h1
          · rw [h1] at hb
            cases hb
          · exact h1
        simp only [hb, Bool.false_eq_true, if_false] at h
        split at h
        · cases h
        · rename_i newC heq1
          split at h
          · cases h
          · rename_i orig2 heq2
            simp only [Except.toOption, Option.map_some'] at h
            cases h
            simp only [saveComplaint] at heq2
            split at heq2
            · rename_i hval2
              injection heq2 with h5
              rw [← h5, preSaveHook_currentStage]
              simp [hst, stageIdx]
            · cases heq2
    · cases h
  | respondOp userId userRole body ic now =>
    simp only [applyOp] at h
    unfold respond at h
    split at h
    · cases h
    · split at h
      · cases h
      · simp only [Except.toOption] at h
        cases h
        exact le_refl _
  | acceptOp perf requester now =>
    simp only [applyOp] at h
    unfold accept at h
    split at h
    · cases h
    · split at h
      · cases h
      · simp only [Except.toOption, Option.map_some'] at h
        cases h
        exact le_refl _

/-- Witness for C3 at a concrete input: a wereda officer responding to a
pending `wereda_first` complaint keeps the stage in place. -/
theorem c3_witness :
    applyOp (sampleComplaint Stage.wereda_first Handler.wereda_anti_corruption
        Status.pending 0 0)
      (Operation.respondOp 5 UserRole.wereda_anti_corruption "b" "" 10) =
      some { sampleComplaint Stage.wereda_first Handler.wereda_anti_corruption
              Status.pending 0 0 with
        responses := (sampleComplaint Stage.wereda_first
            Handler.wereda_anti_corruption Status.pending 0 0).responses ++
          [{ responder := 5, responderRole := Handler.wereda_anti_corruption,
             response := "b", internalComment := "", status := Status.in_progress,
             createdAt := 10 }],
        status := Status.in_progress, updatedAt := 10 } ∧
    stageIdx (sampleComplaint Stage.wereda_first Handler.wereda_anti_corruption
        Status.pending 0 0).currentStage ≤
      stageIdx ({ sampleComplaint Stage.wereda_first Handler.wereda_anti_corruption
              Status.pending 0 0 with
        responses := (sampleComplaint Stage.wereda_first
            Handler.wereda_anti_corruption Status.pending 0 0).responses ++
          [{ responder := 5, responderRole := Handler.wereda_anti_corruption,
             response := "b", internalComment := "", status := Status.in_progress,
             createdAt := 10 }],
        status := Status.in_progress, updatedAt := 10 } : Complaint).currentStage :=
  ⟨by rfl, c3_stage_monotone
    (sampleComplaint Stage.wereda_first Handler.wereda_anti_corruption
      Status.pending 0 0)
    (Operation.respondOp 5 UserRole.wereda_anti_corruption "b" "" 10) _ (by rfl)⟩

/-- C7 (amended): a complaint at `kentiba` whose status is not `resolved`
always fails to escalate with `TerminalStageError`, for any responses and due
dates; when the status is `resolved`, the resolved guard answers first (see
the counterexample). -/
theorem c7_kentiba_terminal (env : EscEnv) (perf : PerfStore) (c : Complaint)
    (now : Int) (reason : Option String)
    (h1 : c.currentStage = Stage.kentiba) (h2 : c.status ≠ Status.resolved) :
    escalate env perf c now reason = .error EscErr.TerminalStageError := by
  have hc : escalateCheck c now = none := by
    unfold escalateCheck
    rw [h1]
  unfold escalate
  rw [beq_status_false h2, hc]
  simp only [Bool.false_eq_true, if_false]
  rw [h1]
  rfl

/-- C7 counterexample: a `resolved` complaint at `kentiba` fails with
`AlreadyResolvedError`, not `TerminalStageError` — the resolved guard of line
287 of `src/routes/complaints.js` runs before the `kentiba` case of the
switch. -/
theorem c7_counterexample :
    escalate ⟨none, none⟩ emptyPerf
      (sampleComplaint Stage.kentiba Handler.kentiba_biro Status.resolved 9 0)
      100 none = .error EscErr.AlreadyResolvedError ∧
    EscErr.AlreadyResolvedError ≠ EscErr.TerminalStageError :=
  ⟨rfl, by decide⟩

/-- Witness for C7 at a concrete input: a pending `kentiba` complaint with 9
responses. -/
theorem c7_witness :
    (sampleComplaint Stage.kentiba Handler.kentiba_biro Status.pending 9 0).currentStage =
      Stage.kentiba ∧
    (sampleComplaint Stage.kentiba Handler.kentiba_biro
        Status.pending 9 0).status ≠ Status.resolved ∧
    escalate ⟨none, none⟩ emptyPerf
      (sampleComplaint Stage.kentiba Handler.kentiba_biro Status.pending 9 0)
      100 none = .error EscErr.TerminalStageError :=
  ⟨rfl, by decide,
    c7_kentiba_terminal ⟨none, none⟩ emptyPerf
      (sampleComplaint Stage.kentiba Handler.kentiba_biro Status.pending 9 0)
      100 none rfl (by decide)⟩

/-- C8 (as stated): a successful escalation writes the next stage's due-date
field as the escalation time plus the new handler's timeframe (3 days
stakeholder, 5 days wereda, 7 days kifleketema), and writes no due-date field
at all on the transition into `kentiba`. -/
theorem c8_due_dates (env : EscEnv) (perf : PerfStore) (c : Complaint)
    (now : Int) (reason : Option String) (c' : Complaint) (perf' : PerfStore)
    (h : escalate env perf c now reason = .ok (c', perf')) :
    (c.currentStage = Stage.stakeholder_first →
      c'.stakeholderSecondResponseDue = some (now + STAKEHOLDER_RESPONSE)) ∧
    (c.currentStage = Stage.stakeholder_second →
      c'.weredaFirstResponseDue = some (now + WEREDA_RESPONSE)) ∧
    (c.currentStage = Stage.wereda_first →
      c'.weredaSecondResponseDue = some (now + WEREDA_RESPONSE)) ∧
    (c.currentStage = Stage.wereda_second →
      c'.kifleketemaFirstResponseDue = some (now + KIFLEKETEMA_RESPONSE)) ∧
    (c.currentStage = Stage.kifleketema_first →
      c'.kifleketemaSecondResponseDue = some (now + KIFLEKETEMA_RESPONSE)) ∧
    (c.currentStage = Stage.kifleketema_second →
      (c'.stakeholderFirstResponseDue = c.stakeholderFirstResponseDue ∧
       c'.stakeholderSecondResponseDue = c.stakeholderSecondResponseDue ∧
       c'.weredaFirstResponseDue = c.weredaFirstResponseDue ∧
       c'.weredaSecondResponseDue = c.weredaSecondResponseDue ∧
       c'.kifleketemaFirstResponseDue = c.kifleketemaFirstResponseDue ∧
       c'.kifleketemaSecondResponseDue = c.kifleketemaSecondResponseDue)) := by
  obtain ⟨h1, ns, nh, ft, df, hcheck, hvalid, hc', hp'⟩ := escalate_ok_elim h
  subst hc'
  refine ⟨?_, ?_, ?_, ?_, ?_, ?_⟩ <;>
    (intro hst
     unfold escalateCheck at hcheck
     rw [hst] at hcheck
     dsimp only at hcheck
     split at hcheck <;> cases hcheck) <;>
    first
      | rfl
      | exact ⟨rfl, rfl, rfl, rfl, rfl, rfl⟩

/-- Witness for C8 at a concrete input: escalating a pending `wereda_first`
complaint with three responses (enum-valid within-handler transition) sets
`weredaSecondResponseDue` to `now + 5` days. -/
theorem c8_witness :
    escalate ⟨none, none⟩ emptyPerf
      (sampleComplaint Stage.wereda_first Handler.wereda_anti_corruption
        Status.pending 3 0) 100 none =
      .ok (preSaveHook false (escalateComplaint
            (sampleComplaint Stage.wereda_first Handler.wereda_anti_corruption
              Status.pending 3 0) 100 none Stage.wereda_second
            Handler.wereda_anti_corruption none (some DueField.weredaSecond)) 100,
          escalatePerf ⟨none, none⟩ emptyPerf
            (sampleComplaint Stage.wereda_first Handler.wereda_anti_corruption
              Status.pending 3 0) 100 none none) ∧
    ((sampleComplaint Stage.wereda_first Handler.wereda_anti_corruption
        Status.pending 3 0).currentStage = Stage.wereda_first →
      (preSaveHook false (escalateComplaint
          (sampleComplaint Stage.wereda_first Handler.wereda_anti_corruption
            Status.pending 3 0) 100 none Stage.wereda_second
          Handler.wereda_anti_corruption none
          (some DueField.weredaSecond)) 100).weredaSecondResponseDue =
        some (100 + WEREDA_RESPONSE)) := by
  have hrun : escalate ⟨none, none⟩ emptyPerf
      (sampleComplaint Stage.wereda_first Handler.wereda_anti_corruption
        Status.pending 3 0) 100 none =
      .ok (preSaveHook false (escalateComplaint
            (sampleComplaint Stage.wereda_first Handler.wereda_anti_corruption
              Status.pending 3 0) 100 none Stage.wereda_second
            Handler.wereda_anti_corruption none (some DueField.weredaSecond)) 100,
          escalatePerf ⟨none, none⟩ emptyPerf
            (sampleComplaint Stage.wereda_first Handler.wereda_anti_corruption
              Status.pending 3 0) 100 none none) := by
    rfl
  exact ⟨hrun, (c8_due_dates ⟨none, none⟩ emptyPerf
    (sampleComplaint Stage.wereda_first Handler.wereda_anti_corruption
      Status.pending 3 0) 100 none _ _ hrun).2.2.1⟩

/-- C6 (code bug): escalating an eligible `kifleketema_second` complaint into
`kentiba` records `wereda_anti_corruption` as the history entry's
from-handler even though the handler immediately before the transition was
`kifleketema_anti_corruption` — the two-way ternary of lines 417-420 of
`src/routes/complaints.js` can never produce the kifleketema value.  The
entry is enum-valid, so the save succeeds and the wrong value persists. -/
theorem c6_kentiba_from_handler_bug :
    ((escalate ⟨none, some 8⟩ emptyPerf
        (sampleComplaint Stage.kifleketema_second Handler.kifleketema_anti_corruption
          Status.pending 6 0) 100 none).toOption.map
      (fun x => x.1.escalationHistory.map
        (fun (e : EscalationEntry) => (e.fromHandler, e.toHandler)))) =
      some [(Handler.wereda_anti_corruption, Handler.kentiba_biro)] ∧
    (sampleComplaint Stage.kifleketema_second Handler.kifleketema_anti_corruption
        Status.pending 6 0).currentHandler = Handler.kifleketema_anti_corruption ∧
    Handler.wereda_anti_corruption ≠ Handler.kifleketema_anti_corruption :=
  ⟨rfl, rfl, by decide⟩

/-- The second-stage `findOne` filter of lines 106-112 of
`src/routes/complaints.js`, as a proposition. -/
lemma secondStage_cond_iff (orig : Complaint) (requester : Nat) :
    (orig.user == requester &&
      (orig.currentStage == Stage.stakeholder_first ||
        orig.currentStage == Stage.wereda_first) &&
      (orig.status == Status.in_progress) && !orig.responses.isEmpty) = true ↔
    (orig.user = requester ∧
      (orig.currentStage = Stage.stakeholder_first ∨
        orig.currentStage = Stage.wereda_first) ∧
      orig.status = Status.in_progress ∧ orig.responses ≠ []) := by
  simp only [Bool.and_eq_true, Bool.or_eq_true, beq_iff_eq, Bool.not_eq_true']
  cases orig.responses
  · simp
  · simp
    tauto

lemma setDueField_title (c : Complaint) (f : DueField) (v : Option Int) :
    (setDueField c f v).title = c.title := by
  cases f <;> rfl

lemma setDueField_description (c : Complaint) (f : DueField) (v : Option Int) :
    (setDueField c f v).description = c.description := by
  cases f <;> rfl

lemma setDueField_location (c : Complaint) (f : DueField) (v : Option Int) :
    (setDueField c f v).location = c.location := by
  cases f <;> rfl

lemma setDueField_escalationHistory (c : Complaint) (f : DueField) (v : Option Int) :
    (setDueField c f v).escalationHistory = c.escalationHistory := by
  cases f <;> rfl

/-- Inversion of a successful second-stage submission: the filter matched,
both saves passed validation, and every output is the corresponding saved
document, with the per-branch transition data made explicit. -/
lemma secondStageSubmit_ok_elim {perf : PerfStore} {orig : Complaint}
    {requester reqOffice newId : Nat} {now : Int} {t d l ad : String}
    {ats : List String} {newC orig' : Complaint} {perf' : PerfStore}
    (h : secondStageSubmit perf orig requester reqOffice newId now t d l ad ats =
      .ok (newC, orig', perf')) :
    (orig.user == requester &&
      (orig.currentStage == Stage.stakeholder_first ||
        orig.currentStage == Stage.wereda_first) &&
      (orig.status == Status.in_progress) && !orig.responses.isEmpty) = true ∧
    ∃ (ns : Stage) (nh : Handler) (dfld : DueField) (tf : Int) (eTo : Handler),
      ((orig.currentStage = Stage.stakeholder_first ∧
          ns = Stage.stakeholder_second ∧ nh = Handler.stakeholder_office ∧
          dfld = DueField.stakeholderSecond ∧ tf = STAKEHOLDER_RESPONSE ∧
          eTo = Handler.wereda_anti_corruption) ∨
        (orig.currentStage = Stage.wereda_first ∧
          ns = Stage.wereda_second ∧ nh = Handler.wereda_anti_corruption ∧
          dfld = DueField.weredaSecond ∧ tf = WEREDA_RESPONSE ∧
          eTo = Handler.kifleketema_anti_corruption)) ∧
      newC = preSaveHook true (setDueField
        { id := newId, user := requester, title := t, description := d,
          stakeholderOffice := reqOffice, location := l, additionalDetails := ad,
          attachments := ats, currentStage := ns, currentHandler := nh,
          status := Status.pending, responses := [], escalationHistory := [],
          stakeholderFirstResponseDue := none, stakeholderSecondResponseDue := none,
          weredaFirstResponseDue := none, weredaSecondResponseDue := none,
          kifleketemaFirstResponseDue := none, kifleketemaSecondResponseDue := none,
          relatedComplaint := some orig.id, secondStageComplaint := none,
          resolution := none, submittedAt := now, updatedAt := now }
        dfld (some (now + tf))) now ∧
      complaintValid newC = true ∧
      orig' = preSaveHook false
        { orig with secondStageComplaint := some newId, currentStage := ns,
                    status := Status.escalated,
                    escalationHistory := orig.escalationHistory ++
                      [{ fromHandler := nh, toHandler := eTo,
                         reason := "Escalated to second stage by citizen",
                         date := now }] } now ∧
      complaintValid orig' = true ∧
      perf' = updatePerf perf reqOffice nh
        { findOrInit perf reqOffice nh with
          totalComplaints := (findOrInit perf reqOffice nh).totalComplaints + 1,
          updatedAt := now } := by
  unfold secondStageSubmit at h
  split at h
  · rename_i hcond
    refine ⟨hcond, ?_⟩
    dsimp only at h
    by_cases hb : (orig.currentStage == Stage.stakeholder_first) = true
    · have hst : orig.currentStage = Stage.stakeholder_first := by simpa using hb
      simp only [hb, eq_self_iff_true, if_true] at h
      split at h
      · cases h
      · rename_i newCx heq1
        split at h
        · cases h
        · rename_i orig2 heq2
          simp only [Except.ok.injEq, Prod.mk.injEq] at h
          obtain ⟨hne, hoe, hpe⟩ := h
          simp only [saveComplaint] at heq1 heq2
          split at heq1
          · rename_i hval1
            injection heq1 with hX
            split at heq2
            · rename_i hval2
              injection heq2 with hY
              refine ⟨Stage.stakeholder_second, Handler.stakeholder_office,
                DueField.stakeholderSecond, STAKEHOLDER_RESPONSE,
                Handler.wereda_anti_corruption,
                Or.inl ⟨hst, rfl, rfl, rfl, rfl, rfl⟩, ?_, ?_, ?_, ?_, ?_⟩
              · rw [← hne]
                exact hX.symm
              · rw [← hne, ← hX]
                exact hval1
              · rw [← hoe]
                exact hY.symm
              · rw [← hoe, ← hY]
                exact hval2
              · exact hpe.symm
            · cases heq2
          · cases heq1
    · rw [Bool.not_eq_true] at hb
      have hst : orig.currentStage = Stage.wereda_first := by
        have hdisj := ((secondStage_cond_iff orig requester).mp hcond).2.1
        rcases hdisj with h1 | h1
        · rw [h1] at hb
          cases hb
        · exact h1
      simp only [hb, Bool.false_eq_true, if_false] at h
      split at h
      · cases h
      · rename_i newCx heq1
        split at h
        · cases h
        · rename_i orig2 heq2
          simp only [Except.ok.injEq, Prod.mk.injEq] at h
          obtain ⟨hne, hoe, hpe⟩ := h
          simp only [saveComplaint] at heq1 heq2
          split at heq1
          · rename_i hval1
            injection heq1 with hX
            split at heq2
            · rename_i hval2
              injection heq2 with hY
              refine ⟨Stage.wereda_second, Handler.wereda_anti_corruption,
                DueField.weredaSecond, WEREDA_RESPONSE,
                Handler.kifleketema_anti_corruption,
                Or.inr ⟨hst, rfl, rfl, rfl, rfl, rfl⟩, ?_, ?_, ?_, ?_, ?_⟩
              · rw [← hne]
                exact hX.symm
              · rw [← hne, ← hX]
                exact hval1
              · rw [← hoe]
                exact hY.symm
              · rw [← hoe, ← hY]
                exact hval2
              · exact hpe.symm
            · cases heq2
          · cases heq1
  · cases h

/-- Construction of a successful second-stage submission from the filter
conditions, non-empty request fields and a schema-valid original. -/
lemma secondStageSubmit_ok_intro (perf : PerfStore) (orig : Complaint)
    (requester reqOffice newId : Nat) (now : Int) (t d l ad : String)
    (ats : List String)
    (hcond : orig.user = requester ∧
      (orig.currentStage = Stage.stakeholder_first ∨
        orig.currentStage = Stage.wereda_first) ∧
      orig.status = Status.in_progress ∧ orig.responses ≠ [])
    (ht : t ≠ "") (hd : d ≠ "") (hl : l ≠ "")
    (hvo : complaintValid orig = true) :
    ∃ out, secondStageSubmit perf orig requester reqOffice newId now t d l ad ats =
      .ok out := by
  have hc := (secondStage_cond_iff orig requester).mpr hcond
  have ht' : (t == "") = false := beq_eq_false_iff_ne.mpr ht
  have hd' : (d == "") = false := beq_eq_false_iff_ne.mpr hd
  have hl' : (l == "") = false := beq_eq_false_iff_ne.mpr hl
  simp only [complaintValid, Bool.and_eq_true] at hvo
  obtain ⟨⟨⟨hT, hD⟩, hL⟩, hH⟩ := hvo
  unfold secondStageSubmit
  simp only [hc, eq_self_iff_true, if_true]
  rcases hcond.2.1 with hst | hst
  · have hb : (orig.currentStage == Stage.stakeholder_first) = true := by
      rw [hst]
      decide
    simp only [hb, eq_self_iff_true, if_true]
    simp [saveComplaint, preSaveHook, setDueField, complaintValid, List.all_append,
      validHistEntry, validHistFrom, validHistTo, ht', hd', hl', hT, hD, hL, hH]
  · have hb : (orig.currentStage == Stage.stakeholder_first) = false := by
      rw [hst]
      decide
    simp only [hb, Bool.false_eq_true, if_false]
    simp [saveComplaint, preSaveHook, setDueField, complaintValid, List.all_append,
      validHistEntry, validHistFrom, validHistTo, ht', hd', hl', hT, hD, hL, hH]

/-- C4 counterexample: a second-stage submission on an original
`stakeholder_first` complaint with 2 responses sets `secondStageComplaint`
and status `escalated` on the original, yet a subsequent escalate request on
that original SUCCEEDS (2 responses exceed the new stage index 1, and the
cross-handler history entry is enum-valid so the save goes through) — the
original is not frozen from further direct escalation. -/
theorem c4_counterexample :
    ((secondStageSubmit emptyPerf
        (sampleComplaint Stage.stakeholder_first Handler.stakeholder_office
          Status.in_progress 2 0) 0 1 11 50 "t" "d" "l" "" []).toOption.map
      (fun x => (x.2.1.status, x.2.1.secondStageComplaint,
        (escalate ⟨none, none⟩ emptyPerf x.2.1 60 none).toOption.isSome))) =
      some (Status.escalated, some 11, true) := by
  rfl

/-- C4 (amended): once a second-stage submission sets `secondStageComplaint`,
the original is `escalated` — but it is not frozen: a later escalate request
on the original succeeds exactly when its response count exceeds the mirrored
second stage's index (the due-date arm can never fire because the submission
sets no due date on the original, and the cross-handler save is enum-valid). -/
theorem c4_frozen_amended (perf : PerfStore) (orig : Complaint)
    (requester reqOffice newId : Nat) (now : Int) (t d l ad : String)
    (ats : List String) (newC orig' : Complaint) (perf' : PerfStore)
    (env2 : EscEnv) (p2 : PerfStore) (now2 : Int) (r2 : Option String)
    (h : secondStageSubmit perf orig requester reqOffice newId now t d l ad ats =
      .ok (newC, orig', perf'))
    (hdue : dueOf orig' = none) :
    orig'.secondStageComplaint = some newId ∧
    orig'.status = Status.escalated ∧
    ((∃ out, escalate env2 p2 orig' now2 r2 = .ok out) ↔
      stageIdx orig'.currentStage < orig'.responses.length) := by
  obtain ⟨hcond, ns, nh, dfld, tf, eTo, hcases, hnew, hvn, horig, hvo, hperf⟩ :=
    secondStageSubmit_ok_elim h
  subst horig
  refine ⟨rfl, rfl, ?_⟩
  rcases hcases with ⟨hst, hns, hnh, hdf, htf, hTo⟩ | ⟨hst, hns, hnh, hdf, htf, hTo⟩ <;>
    subst hns <;>
    exact (escalate_ok_iff_valid env2 p2 _ now2 r2
        (fun hx => Status.noConfusion hx) (fun hx => Stage.noConfusion hx)
        (fun hx => Stage.noConfusion hx) hvo).trans
      (by rw [hdue]; simp [jsAfter])

/-- Concrete original complaint used by the C4 witness. -/
def c4orig : Complaint :=
  sampleComplaint Stage.stakeholder_first Handler.stakeholder_office
    Status.in_progress 1 0

/-- The outputs of the concrete second-stage run used by the C4 witness. -/
def c4out : Complaint × Complaint × PerfStore :=
  match secondStageSubmit emptyPerf c4orig 0 1 11 50 "t" "d" "l" "" [] with
  | .ok out => out
  | .error _ => (c4orig, c4orig, emptyPerf)

/-- Witness for C4 at a concrete input: with exactly one response, the
escalate-iff instance makes the subsequent escalation of the original fail
(1 is not > stage index 1). -/
theorem c4_witness :
    secondStageSubmit emptyPerf c4orig 0 1 11 50 "t" "d" "l" "" [] =
      .ok (c4out.1, c4out.2.1, c4out.2.2) ∧
    dueOf c4out.2.1 = none ∧
    (c4out.2.1.secondStageComplaint = some 11 ∧
     c4out.2.1.status = Status.escalated ∧
     ((∃ out, escalate ⟨none, none⟩ emptyPerf c4out.2.1 60 none = .ok out) ↔
       stageIdx c4out.2.1.currentStage < c4out.2.1.responses.length)) :=
  ⟨rfl, rfl, c4_frozen_amended emptyPerf c4orig 0 1 11 50 "t" "d" "l" "" []
    c4out.1 c4out.2.1 c4out.2.2 ⟨none, none⟩ emptyPerf 60 none rfl rfl⟩

/-- C5 counterexample: the second-stage complaint references the office id
supplied in the request body, not the original's office — submitting with
`stakeholderOfficeId = 2` against an original whose office is 1 succeeds and
the new complaint's office is 2. -/
theorem c5_counterexample :
    ((secondStageSubmit emptyPerf
        (sampleComplaint Stage.stakeholder_first Handler.stakeholder_office
          Status.in_progress 1 0) 0 2 11 50 "t" "d" "l" "" []).toOption.map
      (fun x => x.1.stakeholderOffice)) = some 2 ∧
    (sampleComplaint Stage.stakeholder_first Handler.stakeholder_office
        Status.in_progress 1 0).stakeholderOffice = 1 ∧
    (2 : Nat) ≠ 1 :=
  ⟨rfl, rfl, by decide⟩

/-- C5 (amended): a second-stage submission succeeds iff the original belongs
to the requester, is at `stakeholder_first` or `wereda_first`, is
`in_progress`, has at least one response, AND the submitted title,
description and location are non-empty AND the original itself passes the
schema validators (both saves must succeed).  On success the new complaint
references the office id supplied in the request (not validated against the
original's office), starts at the mirrored second stage with that stage's
handler (which equals the original's handler whenever the original's handler
agrees with its stage), status `pending`, the freshly computed due date for
the new stage, `stakeholderFirstResponseDue` set to save time plus 3 days by
the schema's pre-save hook, and `relatedComplaint` pointing at the
original. -/
theorem c5_second_stage_submission (perf : PerfStore) (orig : Complaint)
    (requester reqOffice newId : Nat) (now : Int) (t d l ad : String)
    (ats : List String) :
    ((∃ out, secondStageSubmit perf orig requester reqOffice newId now t d l ad ats =
        .ok out) ↔
      (orig.user = requester ∧
        (orig.currentStage = Stage.stakeholder_first ∨
          orig.currentStage = Stage.wereda_first) ∧
        orig.status = Status.in_progress ∧ orig.responses ≠ [] ∧
        t ≠ "" ∧ d ≠ "" ∧ l ≠ "" ∧ complaintValid orig = true)) ∧
    (∀ newC orig' perf',
      secondStageSubmit perf orig requester reqOffice newId now t d l ad ats =
        .ok (newC, orig', perf') →
      newC.stakeholderOffice = reqOffice ∧
      newC.status = Status.pending ∧
      newC.relatedComplaint = some orig.id ∧
      newC.currentHandler = handlerOf newC.currentStage ∧
      (orig.currentHandler = handlerOf orig.currentStage →
        newC.currentHandler = orig.currentHandler) ∧
      newC.stakeholderFirstResponseDue = some (now + 3 * 24 * 60 * 60 * 1000) ∧
      (orig.currentStage = Stage.stakeholder_first →
        newC.currentStage = Stage.stakeholder_second ∧
        newC.stakeholderSecondResponseDue = some (now + STAKEHOLDER_RESPONSE)) ∧
      (orig.currentStage = Stage.wereda_first →
        newC.currentStage = Stage.wereda_second ∧
        newC.weredaSecondResponseDue = some (now + WEREDA_RESPONSE))) := by
  constructor
  · constructor
    · rintro ⟨⟨newCx, orig2, perf2⟩, hout⟩
      obtain ⟨hcond, ns, nh, dfld, tf, eTo, hcases, hnew, hvn, horig, hvo, hperf⟩ :=
        secondStageSubmit_ok_elim hout
      have hc' := (secondStage_cond_iff orig requester).mp hcond
      refine ⟨hc'.1, hc'.2.1, hc'.2.2.1, hc'.2.2.2, ?_⟩
      subst hnew horig
      rcases hcases with ⟨hst, hns, hnh, hdf, htf, hTo⟩ | ⟨hst, hns, hnh, hdf, htf, hTo⟩ <;>
        subst hns hnh hdf htf hTo <;>
        simp only [complaintValid, preSaveHook, setDueField, List.all_append,
          List.all_cons, List.all_nil, validHistEntry, validHistFrom, validHistTo,
          eq_self_iff_true, if_true, Bool.false_eq_true, if_false,
          Bool.and_eq_true, Bool.not_eq_true', beq_eq_false_iff_ne,
          Bool.and_true, Bool.true_and] at hvn hvo ⊢ <;>
        tauto
    · rintro ⟨h1, h2, h3, h4, ht, hd, hl, hvo⟩
      exact secondStageSubmit_ok_intro perf orig requester reqOffice newId now
        t d l ad ats ⟨h1, h2, h3, h4⟩ ht hd hl hvo
  · intro newCx orig2 perf2 hout
    obtain ⟨hcond, ns, nh, dfld, tf, eTo, hcases, hnew, hvn, horig, hvo, hperf⟩ :=
      secondStageSubmit_ok_elim hout
    rcases hcases with ⟨hst, hns, hnh, hdf, htf, hTo⟩ | ⟨hst, hns, hnh, hdf, htf, hTo⟩
    · subst hns hnh hdf htf hTo
      subst hnew
      refine ⟨rfl, rfl, rfl, rfl, ?_, rfl, ?_, ?_⟩
      · intro hh
        rw [hst] at hh
        exact hh.symm
      · intro _
        exact ⟨rfl, rfl⟩
      · intro hh
        rw [hst] at hh
        cases hh
    · subst hns hnh hdf htf hTo
      subst hnew
      refine ⟨rfl, rfl, rfl, rfl, ?_, rfl, ?_, ?_⟩
      · intro hh
        rw [hst] at hh
        exact hh.symm
      · intro hh
        rw [hst] at hh
        cases hh
      · intro _
        exact ⟨rfl, rfl⟩

/-- Witness for C5 at a concrete input: both parts of the characterization at
a legitimate second-stage submission. -/
theorem c5_witness :
    (((∃ out, secondStageSubmit emptyPerf c4orig 0 1 11 50 "t" "d" "l" "" [] =
        .ok out) ↔
      (c4orig.user = 0 ∧
        (c4orig.currentStage = Stage.stakeholder_first ∨
          c4orig.currentStage = Stage.wereda_first) ∧
        c4orig.status = Status.in_progress ∧ c4orig.responses ≠ [] ∧
        "t" ≠ "" ∧ "d" ≠ "" ∧ "l" ≠ "" ∧ complaintValid c4orig = true)) ∧
    (∀ newC orig' perf',
      secondStageSubmit emptyPerf c4orig 0 1 11 50 "t" "d" "l" "" [] =
        .ok (newC, orig', perf') →
      newC.stakeholderOffice = 1 ∧
      newC.status = Status.pending ∧
      newC.relatedComplaint = some c4orig.id ∧
      newC.currentHandler = handlerOf newC.currentStage ∧
      (c4orig.currentHandler = handlerOf c4orig.currentStage →
        newC.currentHandler = c4orig.currentHandler) ∧
      newC.stakeholderFirstResponseDue = some (50 + 3 * 24 * 60 * 60 * 1000) ∧
      (c4orig.currentStage = Stage.stakeholder_first →
        newC.currentStage = Stage.stakeholder_second ∧
        newC.stakeholderSecondResponseDue = some (50 + STAKEHOLDER_RESPONSE)) ∧
      (c4orig.currentStage = Stage.wereda_first →
        newC.currentStage = Stage.wereda_second ∧
        newC.weredaSecondResponseDue = some (50 + WEREDA_RESPONSE)))) :=
  c5_second_stage_submission emptyPerf c4orig 0 1 11 50 "t" "d" "l" "" []


/-- Concrete complaint used by the C9 runs: one response by office 1,
submitted at time 0. -/
def c9A : Complaint :=
  sampleComplaint Stage.stakeholder_first Handler.stakeholder_office
    Status.in_progress 1 0

/-- C9 counterexample: accept a complaint resolved the instant it was
submitted (sample 0 days), then accept a second one after 3 days.  The code
finds the stored average equal to 0 and OVERWRITES it with the new sample, so
the average becomes 3 — the running-mean formula `(oldAvg*(n-1)+newSample)/n`
would give 3/2. -/
theorem c9_counterexample :
    (match accept emptyPerf c9A 0 0 with
     | .ok (_, p1) =>
       match accept p1 c9A 0 (3 * 86400000) with
       | .ok (_, p2) => (p2 1 Handler.stakeholder_office).map
           (fun r => (r.resolvedComplaints, r.averageResolutionTime))
       | .error _ => none
     | .error _ => none) = some (2, (3 : ℚ)) ∧
    ((0 : ℚ) * ((2 : ℚ) - 1) + 3) / 2 = 3 / 2 ∧
    (3 : ℚ) ≠ 3 / 2 := by
  refine ⟨?_, by norm_num, by norm_num⟩
  norm_num [accept, acceptPerfUpdate, findOrInit, updatePerf, emptyPerf, c9A,
    sampleComplaint, OfficePerformance.init]

/-- C9 (amended): accepting a response increments the responder's
`resolvedComplaints` and rewrites its record through `acceptPerfUpdate`; when
the STORED AVERAGE is 0 (in particular on the 0→1 resolution) the average is
set exactly to the elapsed days, and when the stored average is nonzero it is
recomputed as `(oldAvg*(n-1)+newSample)/n` with `n` the post-increment count.
The code branches on the stored average being zero, not on the count. -/
theorem c9_average_resolution (perf : PerfStore) (c : Complaint)
    (requester : Nat) (now : Int) (c' : Complaint) (perf' : PerfStore)
    (latest : ComplaintResponse) (op : OfficePerformance) (rt : ℚ) (tm : Int)
    (h : accept perf c requester now = .ok (c', perf'))
    (hl : c.responses.getLast? = some latest) :
    perf' latest.responder latest.responderRole =
      some (acceptPerfUpdate
        (findOrInit perf latest.responder latest.responderRole)
        (((now - c.submittedAt : Int) : ℚ) / (1000 * 60 * 60 * 24)) now) ∧
    (acceptPerfUpdate op rt tm).resolvedComplaints = op.resolvedComplaints + 1 ∧
    (op.averageResolutionTime = 0 →
      (acceptPerfUpdate op rt tm).averageResolutionTime = rt) ∧
    (op.averageResolutionTime ≠ 0 →
      (acceptPerfUpdate op rt tm).averageResolutionTime =
        (op.averageResolutionTime * (((op.resolvedComplaints : ℚ) + 1) - 1) + rt) /
          ((op.resolvedComplaints : ℚ) + 1)) := by
  refine ⟨?_, ?_, ?_, ?_⟩
  · unfold accept at h
    split at h
    · cases h
    · rw [hl] at h
      simp only [Except.ok.injEq, Prod.mk.injEq] at h
      obtain ⟨hc', hp'⟩ := h
      rw [← hp', updatePerf_self]
  · unfold acceptPerfUpdate
    by_cases havg : (op.averageResolutionTime == 0) = true <;> simp [havg]
  · intro h0
    unfold acceptPerfUpdate
    simp [h0]
  · intro h0
    unfold acceptPerfUpdate
    have hb0 : (op.averageResolutionTime == 0) = false := by
      simpa using h0
    simp only [hb0, Bool.false_eq_true, if_false]
    push_cast
    ring_nf

/-- The outputs of the concrete accept run used by the C9 witness. -/
def c9out : Complaint × PerfStore :=
  match accept emptyPerf c9A 0 0 with
  | .ok out => out
  | .error _ => (c9A, emptyPerf)

/-- The latest (only) response of the C9 sample complaint. -/
def c9latest : ComplaintResponse :=
  { responder := 1, responderRole := Handler.stakeholder_office, response := "r",
    internalComment := "", status := Status.in_progress, createdAt := 0 }

/-- Witness for C9 at a concrete input: the first acceptance of an office
record (stored average 0) seeds the average with the sample. -/
theorem c9_witness :
    accept emptyPerf c9A 0 0 = .ok (c9out.1, c9out.2) ∧
    c9A.responses.getLast? = some c9latest ∧
    (c9out.2 c9latest.responder c9latest.responderRole =
      some (acceptPerfUpdate
        (findOrInit emptyPerf c9latest.responder c9latest.responderRole)
        ((((0 : Int) - c9A.submittedAt : Int) : ℚ) / (1000 * 60 * 60 * 24)) 0) ∧
     (acceptPerfUpdate (OfficePerformance.init 1 Handler.stakeholder_office)
        0 0).resolvedComplaints =
       (OfficePerformance.init 1 Handler.stakeholder_office).resolvedComplaints + 1 ∧
     ((OfficePerformance.init 1 Handler.stakeholder_office).averageResolutionTime = 0 →
       (acceptPerfUpdate (OfficePerformance.init 1 Handler.stakeholder_office)
          0 0).averageResolutionTime = 0) ∧
     ((OfficePerformance.init 1 Handler.stakeholder_office).averageResolutionTime ≠ 0 →
       (acceptPerfUpdate (OfficePerformance.init 1 Handler.stakeholder_office)
          0 0).averageResolutionTime =
         ((OfficePerformance.init 1 Handler.stakeholder_office).averageResolutionTime *
           ((((OfficePerformance.init 1
                Handler.stakeholder_office).resolvedComplaints : ℚ) + 1) - 1) + 0) /
           (((OfficePerformance.init 1
                Handler.stakeholder_office).resolvedComplaints : ℚ) + 1))) :=
  ⟨rfl, rfl,
    c9_average_resolution emptyPerf c9A 0 0 c9out.1 c9out.2 c9latest
      (OfficePerformance.init 1 Handler.stakeholder_office) 0 0 rfl rfl⟩

end SmartBackend
